import Mathlib

/-!
Verification of the multi-stage agent response pipeline of `src/index.tsx`
(the `handleSubmit` function, non-image-generation branch, lines 666-789).

The embedding models:
  * the data carried by Gemini-SDK values (`Part`, `Content`, `Candidate`,
    `GenerateContentResponse`) with `Option` wherever the TypeScript code
    relies on a field possibly being `undefined`;
  * requests built by the local `runAgent` closure and by the single-call
    path, as `GenerateRequest` values;
  * the completion client as a call-indexed function
    `Nat → GenerateRequest → Except String GenerateContentResponse`
    (the index is the global order in which the code issues calls, so a
    stateful deterministic stub can be expressed);
  * the run itself as `runPipeline`, returning the list of issued call
    batches (each JavaScript `Promise.all` is one batch; a lone `await`
    is a singleton batch) together with the outcome (`finalResponse`, or
    the thrown error caught at the end of `handleSubmit`).
-/

namespace Mulibot

/-- One content part of a request or response.  The code only ever builds
text parts itself; non-text payloads are opaque blobs. -/
inductive Part where
  | text (s : String)
  | blob (mimeType data : String)
deriving DecidableEq, Repr

/-- A conversation turn.  `parts` is an `Option` because a response turn
coming back from the service may lack the `parts` field, and the code
distinguishes a missing field from an empty array. -/
structure Content where
  role : String
  parts : Option (List Part)
deriving DecidableEq, Repr

/-- One response candidate; `content` may be absent. -/
structure Candidate where
  content : Option Content
deriving DecidableEq, Repr

/-- A response from the completion service. -/
structure GenerateContentResponse where
  candidates : List Candidate
deriving DecidableEq, Repr

/-- The parts of the first candidate, when the whole optional chain
`candidates?.[0]?.content?.parts` is present. -/
def partsChain (r : GenerateContentResponse) : Option (List Part) :=
  (r.candidates.head?.bind Candidate.content).bind Content.parts

/-- `refinementN.candidates?.[0]?.content?.parts || []` as used when
aggregating refinements. -/
def responseParts (r : GenerateContentResponse) : List Part :=
  (partsChain r).getD []

/-- Text of one part (`""` for a non-text part). -/
def Part.textOf : Part → String
  | Part.text s => s
  | Part.blob _ _ => ""

/-- The SDK accessor `response.text`: concatenation of the text parts of
the first candidate. -/
def responseText (r : GenerateContentResponse) : String :=
  (responseParts r).foldl (fun acc p => acc ++ p.textOf) ""

/-- Per-call configuration: `{ systemInstruction, thinkingConfig?, tools? }`. -/
structure GenConfig where
  systemInstruction : Option String
  thinkingBudget : Option Nat
  googleSearch : Bool
deriving DecidableEq, Repr

/-- A request to `ai.models.generateContent`. -/
structure GenerateRequest where
  model : String
  contents : List Content
  config : GenConfig
deriving DecidableEq, Repr

-- Constants from src/index.tsx lines 42-51.

def HEAVY_MODEL : String := "gemini-2.5-pro"

def PRO_MODEL : String := "gemini-2.5-flash"

def QUICK_MODEL : String := "gemini-2.5-flash-lite"

def INITIAL_SYSTEM_INSTRUCTION : String :=
  "You are an expert-level AI assistant. Your task is to provide a comprehensive, accurate, and well-reasoned initial response to the user\x27s query. Aim for clarity and depth. Note: Your response is an intermediate step for other AI agents and will not be shown to the user. Be concise and focus on core information without unnecessary verbosity."

def REFINEMENT_SYSTEM_INSTRUCTION : String :=
  "You are a reflective AI agent. Your primary task is to find flaws. Critically analyze your previous response and the responses from other AI agents. Focus specifically on identifying factual inaccuracies, logical fallacies, omissions, or any other weaknesses. Your goal is to generate a new, revised response that corrects these specific errors and is free from the flaws you have identified. Note: This refined response is for a final synthesizer agent, not the user, so be direct and prioritize accuracy over conversational style."

def SYNTHESIZER_SYSTEM_INSTRUCTION : String :=
  "You are a master synthesizer AI. Your PRIMARY GOAL is to write the final, complete response to the user\x27s query. You will be given the user\x27s query and four refined responses from other AI agents. Your task is to analyze these responses—identifying their strengths to incorporate and their flaws to discard. Use this analysis to construct the single best possible answer for the user. Do not just critique the other agents; your output should BE the final, polished response."

/-- The `switch(currentMode)` of lines 672-684, selecting the model.  The
`default` arm falls back to `PRO_MODEL` without raising any error. -/
def modelFor (currentMode : String) : String :=
  if currentMode = "heavy" then HEAVY_MODEL
  else if currentMode = "pro" then PRO_MODEL
  else if currentMode = "flash" then PRO_MODEL
  else if currentMode = "quick" then QUICK_MODEL
  else PRO_MODEL

/-- The `config` object built at lines 670-686: the caller-supplied persona
instruction (already normalised to `none` when empty, line 667), a zero
thinking budget for `flash` and `quick`, and the optional search tool. -/
def baseConfig (currentMode : String) (userSystemInstruction : Option String)
    (useGoogleSearch : Bool) : GenConfig :=
  { systemInstruction := userSystemInstruction
    thinkingBudget :=
      if currentMode = "flash" ∨ currentMode = "quick" then some 0 else none
    googleSearch := useGoogleSearch }

/-- `[userSystemInstruction, agentInstruction].filter(Boolean).join('\n\n---\n\n')`
from line 689. -/
def combineInstructions (userSystemInstruction : Option String)
    (agentInstruction : String) : String :=
  String.intercalate "\n\n---\n\n"
    (([userSystemInstruction, some agentInstruction].filterMap id).filter
      (fun s => s ≠ ""))

/-- The request built by the `runAgent` closure (lines 688-695): the prior
turns `h`, one new user turn with parts `p`, and the base config with its
system instruction replaced by the combined persona + stage instruction. -/
def agentRequest (currentMode : String) (userSystemInstruction : Option String)
    (useGoogleSearch : Bool) (agentInstruction : String)
    (h : List Content) (p : List Part) : GenerateRequest :=
  { model := modelFor currentMode
    contents := h ++ [{ role := "user", parts := some p }]
    config :=
      { baseConfig currentMode userSystemInstruction useGoogleSearch with
          systemInstruction :=
            some (combineInstructions userSystemInstruction agentInstruction) } }

/-- The Draft request (lines 701 and 732). -/
def draftRequest (currentMode : String) (userSystemInstruction : Option String)
    (useGoogleSearch : Bool) (history : List Content)
    (userParts : List Part) : GenerateRequest :=
  agentRequest currentMode userSystemInstruction useGoogleSearch
    INITIAL_SYSTEM_INSTRUCTION history userParts

/-- The user turn `{ role: 'user', parts: userMessage.parts }`. -/
def userTurn (userParts : List Part) : Content :=
  { role := "user", parts := some userParts }

/-- A Refine request (lines 711-718 and 742-743): prior turns are
`history + userTurn + draftContent` and the new turn is empty. -/
def refineRequest (currentMode : String) (userSystemInstruction : Option String)
    (useGoogleSearch : Bool) (history : List Content) (userParts : List Part)
    (draftContent : Content) : GenerateRequest :=
  agentRequest currentMode userSystemInstruction useGoogleSearch
    REFINEMENT_SYSTEM_INSTRUCTION
    (history ++ [userTurn userParts, draftContent]) []

/-- The Synthesize request (lines 728 and 751): built from the original
`history` and new-turn parts `userParts ++ aggregated refinement parts`. -/
def synthRequest (currentMode : String) (userSystemInstruction : Option String)
    (useGoogleSearch : Bool) (history : List Content) (userParts : List Part)
    (refinedParts : List Part) : GenerateRequest :=
  agentRequest currentMode userSystemInstruction useGoogleSearch
    SYNTHESIZER_SYSTEM_INSTRUCTION history (userParts ++ refinedParts)

/-- The single-call request of line 755 (`quick` and fallback modes): no
stage-instruction overlay, the config is used as built. -/
def singleRequest (currentMode : String) (userSystemInstruction : Option String)
    (useGoogleSearch : Bool) (history : List Content)
    (userParts : List Part) : GenerateRequest :=
  { model := modelFor currentMode
    contents := history ++ [userTurn userParts]
    config := baseConfig currentMode userSystemInstruction useGoogleSearch }

/-- The aggregated refinement parts for the two-refiner (`flash`) branch,
lines 745-748, transcribed verbatim. -/
def refinedParts2 (refinement1 refinement2 : GenerateContentResponse) :
    List Part :=
  [Part.text "--- Refined Response 1 ---\n"] ++ responseParts refinement1 ++
  [Part.text "\n--- Refined Response 2 ---\n"] ++ responseParts refinement2

/-- The aggregated refinement parts for the four-refiner (`pro`/`heavy`)
branch, lines 720-725, transcribed verbatim. -/
def refinedParts4
    (refinement1 refinement2 refinement3 refinement4 : GenerateContentResponse) :
    List Part :=
  [Part.text "--- Refined Response 1 ---\n"] ++ responseParts refinement1 ++
  [Part.text "\n--- Refined Response 2 ---\n"] ++ responseParts refinement2 ++
  [Part.text "\n--- Refined Response 3 ---\n"] ++ responseParts refinement3 ++
  [Part.text "\n--- Refined Response 4 ---\n"] ++ responseParts refinement4

/-- The header part labelling the `i`-th (1-based) refinement in the
aggregated parts: the label line, newline-terminated, with a leading
newline separating it from the previous block for `i > 1`. -/
def refineHeader (i : Nat) : Part :=
  Part.text ((if i = 1 then "" else "\n") ++
    "--- Refined Response " ++ toString i ++ " ---\n")

/-- Index-ordered aggregation of any list of refinement responses: for the
`i`-th (1-based) response, its header followed by its content parts. -/
def aggregateRefinements (rs : List GenerateContentResponse) : List Part :=
  (rs.enum.map (fun p => refineHeader (p.1 + 1) :: responseParts p.2)).flatten

/-- Which stage a given issued call belongs to. -/
inductive Stage where
  | draft
  | refine
  | synthesize
  | single
deriving DecidableEq, Repr

/-- A batch of calls issued together (one JavaScript `Promise.all`, or a
singleton for a lone `await`). -/
abbrev CallBatch := List (Stage × GenerateRequest)

/-- A completion client: given the global index of the call (in issue
order) and the request, returns a response or fails like a thrown
JavaScript error. -/
abbrev Client := Nat → GenerateRequest → Except String GenerateContentResponse

/-- The observable result of one run: the batches of issued calls, in
order, and the outcome (`finalResponse` or the caught error). -/
structure RunResult where
  trace : List CallBatch
  outcome : Except String GenerateContentResponse
deriving Repr

/-- The emptiness test of lines 704 and 735,
`!initialContent?.parts?.length`: true when the content is absent, the
parts field is absent, or the parts array is empty. -/
def draftEmpty (r : GenerateContentResponse) : Bool :=
  match r.candidates.head?.bind Candidate.content with
  | none => true
  | some ct =>
    match ct.parts with
    | none => true
    | some ps => ps.isEmpty

/-- The `pro`/`heavy` branch (lines 699-729): one Draft call, the
empty-draft short-circuit, two successive pairs of Refine calls (each
pair one `Promise.all`), then one Synthesize call. -/
def fourAgentRun (c : Client) (currentMode : String) (history : List Content)
    (userParts : List Part) (userSystemInstruction : Option String)
    (useGoogleSearch : Bool) : RunResult :=
  let rqd := draftRequest currentMode userSystemInstruction useGoogleSearch
    history userParts
  match c 0 rqd with
  | .error e => ⟨[[(.draft, rqd)]], .error e⟩
  | .ok initialResponse =>
    match initialResponse.candidates.head?.bind Candidate.content with
    | none => ⟨[[(.draft, rqd)]], .ok initialResponse⟩
    | some initialContent =>
      match initialContent.parts with
      | none => ⟨[[(.draft, rqd)]], .ok initialResponse⟩
      | some ps =>
        if ps.isEmpty then ⟨[[(.draft, rqd)]], .ok initialResponse⟩
        else
          let rqr := refineRequest currentMode userSystemInstruction
            useGoogleSearch history userParts initialContent
          match c 1 rqr, c 2 rqr with
          | .error e, _ =>
            ⟨[[(.draft, rqd)], [(.refine, rqr), (.refine, rqr)]], .error e⟩
          | .ok _, .error e =>
            ⟨[[(.draft, rqd)], [(.refine, rqr), (.refine, rqr)]], .error e⟩
          | .ok refinement1, .ok refinement2 =>
            match c 3 rqr, c 4 rqr with
            | .error e, _ =>
              ⟨[[(.draft, rqd)], [(.refine, rqr), (.refine, rqr)],
                [(.refine, rqr), (.refine, rqr)]], .error e⟩
            | .ok _, .error e =>
              ⟨[[(.draft, rqd)], [(.refine, rqr), (.refine, rqr)],
                [(.refine, rqr), (.refine, rqr)]], .error e⟩
            | .ok refinement3, .ok refinement4 =>
              let rqs := synthRequest currentMode userSystemInstruction
                useGoogleSearch history userParts
                (refinedParts4 refinement1 refinement2 refinement3 refinement4)
              ⟨[[(.draft, rqd)], [(.refine, rqr), (.refine, rqr)],
                [(.refine, rqr), (.refine, rqr)], [(.synthesize, rqs)]],
               c 5 rqs⟩

/-- The `flash` branch (lines 730-752): one Draft call, the empty-draft
short-circuit, one pair of Refine calls, then one Synthesize call. -/
def twoAgentRun (c : Client) (currentMode : String) (history : List Content)
    (userParts : List Part) (userSystemInstruction : Option String)
    (useGoogleSearch : Bool) : RunResult :=
  let rqd := draftRequest currentMode userSystemInstruction useGoogleSearch
    history userParts
  match c 0 rqd with
  | .error e => ⟨[[(.draft, rqd)]], .error e⟩
  | .ok initialResponse =>
    match initialResponse.candidates.head?.bind Candidate.content with
    | none => ⟨[[(.draft, rqd)]], .ok initialResponse⟩
    | some initialContent =>
      match initialContent.parts with
      | none => ⟨[[(.draft, rqd)]], .ok initialResponse⟩
      | some ps =>
        if ps.isEmpty then ⟨[[(.draft, rqd)]], .ok initialResponse⟩
        else
          let rqr := refineRequest currentMode userSystemInstruction
            useGoogleSearch history userParts initialContent
          match c 1 rqr, c 2 rqr with
          | .error e, _ =>
            ⟨[[(.draft, rqd)], [(.refine, rqr), (.refine, rqr)]], .error e⟩
          | .ok _, .error e =>
            ⟨[[(.draft, rqd)], [(.refine, rqr), (.refine, rqr)]], .error e⟩
          | .ok refinement1, .ok refinement2 =>
            let rqs := synthRequest currentMode userSystemInstruction
              useGoogleSearch history userParts
              (refinedParts2 refinement1 refinement2)
            ⟨[[(.draft, rqd)], [(.refine, rqr), (.refine, rqr)],
              [(.synthesize, rqs)]], c 3 rqs⟩

/-- The single-call branch (lines 753-756), used for `quick` and any
unrecognised fallback mode. -/
def singleRun (c : Client) (currentMode : String) (history : List Content)
    (userParts : List Part) (userSystemInstruction : Option String)
    (useGoogleSearch : Bool) : RunResult :=
  let rq := singleRequest currentMode userSystemInstruction useGoogleSearch
    history userParts
  ⟨[[(.single, rq)]], c 0 rq⟩

/-- The whole non-image-generation pipeline of `handleSubmit`
(lines 666-767): the branch selection of lines 699, 730 and 753. -/
def runPipeline (c : Client) (currentMode : String) (history : List Content)
    (userParts : List Part) (userSystemInstruction : Option String)
    (useGoogleSearch : Bool) : RunResult :=
  if currentMode = "heavy" ∨ currentMode = "pro" then
    fourAgentRun c currentMode history userParts userSystemInstruction
      useGoogleSearch
  else if currentMode = "flash" then
    twoAgentRun c currentMode history userParts userSystemInstruction
      useGoogleSearch
  else
    singleRun c currentMode history userParts userSystemInstruction
      useGoogleSearch

/-- The parts of the delivered model message (line 764):
`finalResponse.candidates?.[0]?.content?.parts || [{ text: "Sorry, ..." }]`.
Under JavaScript truthiness an array, even empty, is truthy, so the
placeholder is substituted only when the optional chain is absent. -/
def finalModelParts (finalResponse : GenerateContentResponse) : List Part :=
  match partsChain finalResponse with
  | none => [Part.text "Sorry, I couldn\x27t generate a response."]
  | some ps => ps

/-- The parts of the message the caller finally sees: the error message
built at lines 776-780 when the run failed, the final model message parts
of line 764 otherwise. -/
def deliveredMessageParts (r : RunResult) : List Part :=
  match r.outcome with
  | .error e => [Part.text ("An error occurred: " ++ e)]
  | .ok resp => finalModelParts resp

/-- Number of Refine calls of a mode, read off the branch structure:
4 for `pro`/`heavy`, 2 for `flash`, 0 otherwise. -/
def refineAgents (currentMode : String) : Nat :=
  if currentMode = "heavy" ∨ currentMode = "pro" then 4
  else if currentMode = "flash" then 2
  else 0

/-- The stages of the issued calls, batch by batch. -/
def stagesOf (r : RunResult) : List (List Stage) :=
  r.trace.map (fun b => b.map Prod.fst)

/-- A response whose sole candidate carries one text part. -/
def mkTextResponse (s : String) : GenerateContentResponse :=
  ⟨[⟨some ⟨"model", some [Part.text s]⟩⟩]⟩

/-- A stub client answering every call with the same one-text-part
response `"D"`. -/
def stubD : Client := fun _ _ => .ok (mkTextResponse "D")

-- Dispatch equations for the mode condition of lines 699, 730 and 753.

lemma runPipeline_four (c : Client) (mode : String) (h : List Content)
    (u : List Part) (si : Option String) (g : Bool)
    (hm : mode = "heavy" ∨ mode = "pro") :
    runPipeline c mode h u si g = fourAgentRun c mode h u si g := by
  unfold runPipeline
  rw [if_pos hm]

lemma runPipeline_flash (c : Client) (h : List Content) (u : List Part)
    (si : Option String) (g : Bool) :
    runPipeline c "flash" h u si g = twoAgentRun c "flash" h u si g := by
  unfold runPipeline
  rw [if_neg (by decide), if_pos rfl]

lemma runPipeline_single (c : Client) (mode : String) (h : List Content)
    (u : List Part) (si : Option String) (g : Bool)
    (hm : ¬(mode = "heavy" ∨ mode = "pro")) (hf : mode ≠ "flash") :
    runPipeline c mode h u si g = singleRun c mode h u si g := by
  unfold runPipeline
  rw [if_neg hm, if_neg hf]

/-- Reduction of the `flash` branch when the draft succeeds with a
non-empty content and both refiners succeed. -/
lemma twoAgentRun_success (c : Client) (mode : String) (h : List Content)
    (u : List Part) (si : Option String) (g : Bool)
    (resp : GenerateContentResponse) (ct : Content) (ps : List Part)
    (r1 r2 : GenerateContentResponse)
    (hd : c 0 (draftRequest mode si g h u) = .ok resp)
    (hct : resp.candidates.head?.bind Candidate.content = some ct)
    (hps : ct.parts = some ps)
    (hne : ps.isEmpty = false)
    (h1 : c 1 (refineRequest mode si g h u ct) = .ok r1)
    (h2 : c 2 (refineRequest mode si g h u ct) = .ok r2) :
    twoAgentRun c mode h u si g =
      ⟨[[(.draft, draftRequest mode si g h u)],
        [(.refine, refineRequest mode si g h u ct),
         (.refine, refineRequest mode si g h u ct)],
        [(.synthesize, synthRequest mode si g h u (refinedParts2 r1 r2))]],
       c 3 (synthRequest mode si g h u (refinedParts2 r1 r2))⟩ := by
  simp only [twoAgentRun, hd, hct, hps, hne, h1, h2, Bool.false_eq_true,
    if_false]

/-- Reduction of the `pro`/`heavy` branch when the draft succeeds with a
non-empty content and all four refiners succeed. -/
lemma fourAgentRun_success (c : Client) (mode : String) (h : List Content)
    (u : List Part) (si : Option String) (g : Bool)
    (resp : GenerateContentResponse) (ct : Content) (ps : List Part)
    (r1 r2 r3 r4 : GenerateContentResponse)
    (hd : c 0 (draftRequest mode si g h u) = .ok resp)
    (hct : resp.candidates.head?.bind Candidate.content = some ct)
    (hps : ct.parts = some ps)
    (hne : ps.isEmpty = false)
    (h1 : c 1 (refineRequest mode si g h u ct) = .ok r1)
    (h2 : c 2 (refineRequest mode si g h u ct) = .ok r2)
    (h3 : c 3 (refineRequest mode si g h u ct) = .ok r3)
    (h4 : c 4 (refineRequest mode si g h u ct) = .ok r4) :
    fourAgentRun c mode h u si g =
      ⟨[[(.draft, draftRequest mode si g h u)],
        [(.refine, refineRequest mode si g h u ct),
         (.refine, refineRequest mode si g h u ct)],
        [(.refine, refineRequest mode si g h u ct),
         (.refine, refineRequest mode si g h u ct)],
        [(.synthesize,
          synthRequest mode si g h u (refinedParts4 r1 r2 r3 r4))]],
       c 5 (synthRequest mode si g h u (refinedParts4 r1 r2 r3 r4))⟩ := by
  simp only [fourAgentRun, hd, hct, hps, hne, h1, h2, h3, h4,
    Bool.false_eq_true, if_false]

/-- Reduction of the `flash` branch when the draft response is empty. -/
lemma twoAgentRun_emptyDraft (c : Client) (mode : String) (h : List Content)
    (u : List Part) (si : Option String) (g : Bool)
    (resp : GenerateContentResponse)
    (hd : c 0 (draftRequest mode si g h u) = .ok resp)
    (hemp : draftEmpty resp = true) :
    twoAgentRun c mode h u si g =
      ⟨[[(.draft, draftRequest mode si g h u)]], .ok resp⟩ := by
  rcases hcc : resp.candidates.head?.bind Candidate.content with _ | ct
  · simp only [twoAgentRun, hd, hcc]
  · rcases hpp : ct.parts with _ | ps
    · simp only [twoAgentRun, hd, hcc, hpp]
    · simp only [draftEmpty, hcc, hpp] at hemp
      simp only [twoAgentRun, hd, hcc, hpp, hemp, if_true]

/-- Reduction of the `pro`/`heavy` branch when the draft response is
empty. -/
lemma fourAgentRun_emptyDraft (c : Client) (mode : String) (h : List Content)
    (u : List Part) (si : Option String) (g : Bool)
    (resp : GenerateContentResponse)
    (hd : c 0 (draftRequest mode si g h u) = .ok resp)
    (hemp : draftEmpty resp = true) :
    fourAgentRun c mode h u si g =
      ⟨[[(.draft, draftRequest mode si g h u)]], .ok resp⟩ := by
  rcases hcc : resp.candidates.head?.bind Candidate.content with _ | ct
  · simp only [fourAgentRun, hd, hcc]
  · rcases hpp : ct.parts with _ | ps
    · simp only [fourAgentRun, hd, hcc, hpp]
    · simp only [draftEmpty, hcc, hpp] at hemp
      simp only [fourAgentRun, hd, hcc, hpp, hemp, if_true]

/-- Reduction of the `flash` branch when the draft succeeds with non-empty
content but one of the two refiners fails. -/
lemma twoAgentRun_refineFail (c : Client) (mode : String) (h : List Content)
    (u : List Part) (si : Option String) (g : Bool)
    (resp : GenerateContentResponse) (ct : Content) (ps : List Part)
    (hd : c 0 (draftRequest mode si g h u) = .ok resp)
    (hct : resp.candidates.head?.bind Candidate.content = some ct)
    (hps : ct.parts = some ps)
    (hne : ps.isEmpty = false)
    (hfail : ∃ k e, 1 ≤ k ∧ k ≤ 2 ∧
      c k (refineRequest mode si g h u ct) = .error e) :
    ∃ e, twoAgentRun c mode h u si g =
      ⟨[[(.draft, draftRequest mode si g h u)],
        [(.refine, refineRequest mode si g h u ct),
         (.refine, refineRequest mode si g h u ct)]], .error e⟩ := by
  obtain ⟨k, e, hk1, hk2, hke⟩ := hfail
  rcases hc1 : c 1 (refineRequest mode si g h u ct) with e1 | r1
  · exact ⟨e1, by
      simp only [twoAgentRun, hd, hct, hps, hne, hc1, Bool.false_eq_true,
        if_false]⟩
  · rcases hc2 : c 2 (refineRequest mode si g h u ct) with e2 | r2
    · exact ⟨e2, by
        simp only [twoAgentRun, hd, hct, hps, hne, hc1, hc2,
          Bool.false_eq_true, if_false]⟩
    · exfalso
      interval_cases k
      · rw [hc1] at hke; exact Except.noConfusion hke
      · rw [hc2] at hke; exact Except.noConfusion hke

/-- Reduction of the `pro`/`heavy` branch when the draft succeeds with
non-empty content but one of the four refiners fails. -/
lemma fourAgentRun_refineFail (c : Client) (mode : String) (h : List Content)
    (u : List Part) (si : Option String) (g : Bool)
    (resp : GenerateContentResponse) (ct : Content) (ps : List Part)
    (hd : c 0 (draftRequest mode si g h u) = .ok resp)
    (hct : resp.candidates.head?.bind Candidate.content = some ct)
    (hps : ct.parts = some ps)
    (hne : ps.isEmpty = false)
    (hfail : ∃ k e, 1 ≤ k ∧ k ≤ 4 ∧
      c k (refineRequest mode si g h u ct) = .error e) :
    ∃ e, fourAgentRun c mode h u si g =
        ⟨[[(.draft, draftRequest mode si g h u)],
          [(.refine, refineRequest mode si g h u ct),
           (.refine, refineRequest mode si g h u ct)]], .error e⟩ ∨
      fourAgentRun c mode h u si g =
        ⟨[[(.draft, draftRequest mode si g h u)],
          [(.refine, refineRequest mode si g h u ct),
           (.refine, refineRequest mode si g h u ct)],
          [(.refine, refineRequest mode si g h u ct),
           (.refine, refineRequest mode si g h u ct)]], .error e⟩ := by
  obtain ⟨k, e, hk1, hk2, hke⟩ := hfail
  rcases hc1 : c 1 (refineRequest mode si g h u ct) with e1 | r1
  · exact ⟨e1, Or.inl (by
      simp only [fourAgentRun, hd, hct, hps, hne, hc1, Bool.false_eq_true,
        if_false])⟩
  · rcases hc2 : c 2 (refineRequest mode si g h u ct) with e2 | r2
    · exact ⟨e2, Or.inl (by
        simp only [fourAgentRun, hd, hct, hps, hne, hc1, hc2,
          Bool.false_eq_true, if_false])⟩
    · rcases hc3 : c 3 (refineRequest mode si g h u ct) with e3 | r3
      · exact ⟨e3, Or.inr (by
          simp only [fourAgentRun, hd, hct, hps, hne, hc1, hc2, hc3,
            Bool.false_eq_true, if_false])⟩
      · rcases hc4 : c 4 (refineRequest mode si g h u ct) with e4 | r4
        · exact ⟨e4, Or.inr (by
            simp only [fourAgentRun, hd, hct, hps, hne, hc1, hc2, hc3, hc4,
              Bool.false_eq_true, if_false])⟩
        · exfalso
          interval_cases k
          · rw [hc1] at hke; exact Except.noConfusion hke
          · rw [hc2] at hke; exact Except.noConfusion hke
          · rw [hc3] at hke; exact Except.noConfusion hke
          · rw [hc4] at hke; exact Except.noConfusion hke

/-- Claim C1, counterexample.  In `pro` mode with a stub that always
succeeds, the four Refine calls are issued as two successive pairs
(batch sizes `[1, 2, 2, 1]`), not as one concurrent batch of `N = 4`
(batch sizes `[1, 4, 1]`) as the claim states. -/
theorem c1_counterexample :
    (runPipeline stubD "pro" [] [Part.text "X"] none false).trace.map
        List.length = [1, 2, 2, 1] ∧
      (runPipeline stubD "pro" [] [Part.text "X"] none false).trace.map
        List.length ≠ [1, 4, 1] :=
  ⟨rfl, by decide⟩

/-- Claim C1, amended: for every pipeline mode (`flash`, `pro`, `heavy`)
whose draft succeeds with at least one content part and whose refine
calls succeed, the run issues exactly `1 + N + 1` calls in the order
1 Draft, then `N` Refine, then 1 Synthesize — the `N` Refine calls being
issued in concurrent pairs: one pair for `flash`, two successive pairs
for `pro` and `heavy`. -/
theorem c1_call_pattern (c : Client) (mode : String) (h : List Content)
    (u : List Part) (si : Option String) (g : Bool)
    (resp : GenerateContentResponse) (ct : Content) (ps : List Part)
    (r1 r2 r3 r4 : GenerateContentResponse)
    (hm : mode = "flash" ∨ mode = "pro" ∨ mode = "heavy")
    (hd : c 0 (draftRequest mode si g h u) = .ok resp)
    (hct : resp.candidates.head?.bind Candidate.content = some ct)
    (hps : ct.parts = some ps)
    (hne : ps.isEmpty = false)
    (h1 : c 1 (refineRequest mode si g h u ct) = .ok r1)
    (h2 : c 2 (refineRequest mode si g h u ct) = .ok r2)
    (h3 : c 3 (refineRequest mode si g h u ct) = .ok r3)
    (h4 : c 4 (refineRequest mode si g h u ct) = .ok r4) :
    stagesOf (runPipeline c mode h u si g) =
        (if mode = "flash" then
          [[.draft], [.refine, .refine], [.synthesize]]
        else
          [[.draft], [.refine, .refine], [.refine, .refine],
           [.synthesize]]) ∧
      (runPipeline c mode h u si g).trace.flatten.length =
        1 + refineAgents mode + 1 := by
  rcases hm with hm | hm | hm <;> subst hm
  · rw [runPipeline_flash,
      twoAgentRun_success c _ h u si g resp ct ps r1 r2 hd hct hps hne h1 h2]
    refine ⟨rfl, ?_⟩
    simp [refineAgents]
  · rw [runPipeline_four c _ h u si g (Or.inr rfl),
      fourAgentRun_success c _ h u si g resp ct ps r1 r2 r3 r4 hd hct hps hne
        h1 h2 h3 h4]
    refine ⟨by simp [stagesOf], ?_⟩
    simp [refineAgents]
  · rw [runPipeline_four c _ h u si g (Or.inl rfl),
      fourAgentRun_success c _ h u si g resp ct ps r1 r2 r3 r4 hd hct hps hne
        h1 h2 h3 h4]
    refine ⟨by simp [stagesOf], ?_⟩
    simp [refineAgents]

/-- Claim C1, witness: the amended call pattern at a concrete `pro` run. -/
theorem c1_call_pattern_witness :
    stagesOf (runPipeline stubD "pro" [] [Part.text "X"] none false) =
        (if "pro" = "flash" then
          [[.draft], [.refine, .refine], [.synthesize]]
        else
          [[.draft], [.refine, .refine], [.refine, .refine],
           [.synthesize]]) ∧
      (runPipeline stubD "pro" [] [Part.text "X"] none false).trace.flatten.length =
        1 + refineAgents "pro" + 1 :=
  c1_call_pattern stubD "pro" [] [Part.text "X"] none false
    (mkTextResponse "D") ⟨"model", some [Part.text "D"]⟩ [Part.text "D"]
    (mkTextResponse "D") (mkTextResponse "D") (mkTextResponse "D")
    (mkTextResponse "D") (Or.inr (Or.inl rfl)) rfl rfl rfl rfl rfl rfl rfl rfl

/-- Claim C2: in every pipeline mode, if the Draft response is empty
(absent content, absent parts field, or an empty parts array), exactly one
call is made in total, the final result is the Draft response itself, no
Refine or Synthesize call is issued, and the run terminates successfully. -/
theorem c2_empty_draft_short_circuit (c : Client) (mode : String)
    (h : List Content) (u : List Part) (si : Option String) (g : Bool)
    (resp : GenerateContentResponse)
    (hm : mode = "flash" ∨ mode = "pro" ∨ mode = "heavy")
    (hd : c 0 (draftRequest mode si g h u) = .ok resp)
    (hemp : draftEmpty resp = true) :
    runPipeline c mode h u si g =
      ⟨[[(.draft, draftRequest mode si g h u)]], .ok resp⟩ := by
  rcases hm with hm | hm | hm <;> subst hm
  · rw [runPipeline_flash]
    exact twoAgentRun_emptyDraft c _ h u si g resp hd hemp
  · rw [runPipeline_four c _ h u si g (Or.inr rfl)]
    exact fourAgentRun_emptyDraft c _ h u si g resp hd hemp
  · rw [runPipeline_four c _ h u si g (Or.inl rfl)]
    exact fourAgentRun_emptyDraft c _ h u si g resp hd hemp

/-- A stub client answering every call with a response that has no
candidates at all. -/
def stubNoCandidates : Client := fun _ _ => .ok ⟨[]⟩

/-- Claim C2, witness: the empty-draft short-circuit at a concrete `flash`
run. -/
theorem c2_empty_draft_short_circuit_witness :
    runPipeline stubNoCandidates "flash" [] [Part.text "X"] none false =
      ⟨[[(.draft, draftRequest "flash" none false [] [Part.text "X"])]],
       .ok ⟨[]⟩⟩ :=
  c2_empty_draft_short_circuit stubNoCandidates "flash" [] [Part.text "X"]
    none false ⟨[]⟩ (Or.inl rfl) rfl rfl

/-- Claim C3: in `quick` mode exactly one completion call is issued, its
request is built with the caller-supplied persona instruction only (no
stage-instruction overlay) on the `quick` model, and its response —
success or failure — is the final result unchanged. -/
theorem c3_quick_single_call (c : Client) (h : List Content) (u : List Part)
    (si : Option String) (g : Bool) :
    runPipeline c "quick" h u si g =
        ⟨[[(.single, singleRequest "quick" si g h u)]],
         c 0 (singleRequest "quick" si g h u)⟩ ∧
      (singleRequest "quick" si g h u).config.systemInstruction = si ∧
      (singleRequest "quick" si g h u).model = QUICK_MODEL := by
  refine ⟨?_, rfl, rfl⟩
  rw [runPipeline_single c _ h u si g (by decide) (by decide)]
  rfl

-- The concrete text of each aggregation header.

lemma refineHeader_one :
    refineHeader 1 = Part.text "--- Refined Response 1 ---\n" := by decide

lemma refineHeader_two :
    refineHeader 2 = Part.text "\n--- Refined Response 2 ---\n" := by decide

lemma refineHeader_three :
    refineHeader 3 = Part.text "\n--- Refined Response 3 ---\n" := by decide

lemma refineHeader_four :
    refineHeader 4 = Part.text "\n--- Refined Response 4 ---\n" := by decide

/-- Claim C4: both inline aggregations of the code (two refiners at lines
745-748, four refiners at lines 720-725) enumerate the refinement results
in request-index order: for each 1-based index `i`, the header part
labelled `--- Refined Response i ---` (newline-delimited) followed by that
result's content parts; they agree with the index-ordered
`aggregateRefinements`, and a result with no content parts still
contributes its bare header. -/
theorem c4_aggregation_order :
    (∀ r1 r2, refinedParts2 r1 r2 =
        (refineHeader 1 :: responseParts r1) ++
        (refineHeader 2 :: responseParts r2)) ∧
      (∀ r1 r2 r3 r4, refinedParts4 r1 r2 r3 r4 =
        (refineHeader 1 :: responseParts r1) ++
        (refineHeader 2 :: responseParts r2) ++
        (refineHeader 3 :: responseParts r3) ++
        (refineHeader 4 :: responseParts r4)) ∧
      (∀ r1 r2, refinedParts2 r1 r2 = aggregateRefinements [r1, r2]) ∧
      (∀ r1 r2 r3 r4, refinedParts4 r1 r2 r3 r4 =
        aggregateRefinements [r1, r2, r3, r4]) ∧
      (∀ r1 r2, responseParts r2 = [] →
        refinedParts2 r1 r2 =
          (refineHeader 1 :: responseParts r1) ++ [refineHeader 2]) := by
  refine ⟨?_, ?_, ?_, ?_, ?_⟩
  · intro r1 r2
    simp [refinedParts2, refineHeader_one, refineHeader_two]
  · intro r1 r2 r3 r4
    simp [refinedParts4, refineHeader_one, refineHeader_two,
      refineHeader_three, refineHeader_four]
  · intro r1 r2
    simp [refinedParts2, aggregateRefinements, List.enum, refineHeader_one,
      refineHeader_two]
  · intro r1 r2 r3 r4
    simp [refinedParts4, aggregateRefinements, List.enum, refineHeader_one,
      refineHeader_two, refineHeader_three, refineHeader_four]
  · intro r1 r2 hr2
    simp [refinedParts2, hr2, refineHeader_one, refineHeader_two]

/-- A response whose sole candidate has a present but empty parts array. -/
def emptyPartsResponse : GenerateContentResponse :=
  ⟨[⟨some ⟨"model", some []⟩⟩]⟩

/-- Claim C4, witness: a refinement result with zero content parts still
contributes its bare header. -/
theorem c4_aggregation_order_witness :
    responseParts emptyPartsResponse = [] ∧
      refinedParts2 (mkTextResponse "R1") emptyPartsResponse =
        (refineHeader 1 :: responseParts (mkTextResponse "R1")) ++
          [refineHeader 2] :=
  ⟨rfl, c4_aggregation_order.2.2.2.2 (mkTextResponse "R1")
    emptyPartsResponse rfl⟩

/-- The stateful deterministic stub of the spec scenario: Draft `"D"`,
Refine `["R1", "R2"]`, Synthesize `"S"`. -/
def stubC5 : Client := fun k _ =>
  .ok (mkTextResponse
    (if k = 0 then "D" else if k = 1 then "R1" else if k = 2 then "R2"
     else "S"))

/-- Claim C5: every run reaching Synthesize builds the Synthesize request
from the original history (not the refined history) with new-turn parts
equal to the user parts followed by the aggregated refinement parts, and
its response is the final result; and in the concrete Flash scenario with
user text `X` and stub results `D`, `R1`, `R2`, `S`, the final text is
`S` and the Synthesize new-turn parts are `X` followed by parts whose
text concatenation is the labelled `R1`/`R2` block. -/
theorem c5_synthesize_from_original_history :
    (∀ (c : Client) (mode : String) (h : List Content) (u : List Part)
       (si : Option String) (g : Bool) (resp : GenerateContentResponse)
       (ct : Content) (ps : List Part)
       (r1 r2 r3 r4 : GenerateContentResponse),
       mode = "flash" ∨ mode = "pro" ∨ mode = "heavy" →
       c 0 (draftRequest mode si g h u) = .ok resp →
       resp.candidates.head?.bind Candidate.content = some ct →
       ct.parts = some ps →
       ps.isEmpty = false →
       c 1 (refineRequest mode si g h u ct) = .ok r1 →
       c 2 (refineRequest mode si g h u ct) = .ok r2 →
       c 3 (refineRequest mode si g h u ct) = .ok r3 →
       c 4 (refineRequest mode si g h u ct) = .ok r4 →
       ∃ refined,
         refined = (if mode = "flash" then refinedParts2 r1 r2
                    else refinedParts4 r1 r2 r3 r4) ∧
           (runPipeline c mode h u si g).trace.getLast? =
             some [(.synthesize, synthRequest mode si g h u refined)] ∧
           (synthRequest mode si g h u refined).contents =
             h ++ [{ role := "user", parts := some (u ++ refined) }] ∧
           (runPipeline c mode h u si g).outcome =
             c (if mode = "flash" then 3 else 5)
               (synthRequest mode si g h u refined)) ∧
      (runPipeline stubC5 "flash" [] [Part.text "X"] none false).outcome =
          .ok (mkTextResponse "S") ∧
      responseText (mkTextResponse "S") = "S" ∧
      ((runPipeline stubC5 "flash" [] [Part.text "X"]
            none false).trace.flatten.filter
          (fun ev => ev.1 == Stage.synthesize)).map
          (fun ev => ev.2.contents.getLast?.bind Content.parts) =
        [some ([Part.text "X"] ++
          refinedParts2 (mkTextResponse "R1") (mkTextResponse "R2"))] ∧
      (refinedParts2 (mkTextResponse "R1") (mkTextResponse "R2")).foldl
          (fun acc p => acc ++ p.textOf) "" =
        "--- Refined Response 1 ---\nR1\n--- Refined Response 2 ---\nR2" := by
  refine ⟨?_, rfl, rfl, rfl, rfl⟩
  intro c mode h u si g resp ct ps r1 r2 r3 r4 hm hd hct hps hne h1 h2 h3 h4
  rcases hm with hm | hm | hm <;> subst hm
  · rw [runPipeline_flash,
      twoAgentRun_success c _ h u si g resp ct ps r1 r2 hd hct hps hne h1 h2]
    exact ⟨refinedParts2 r1 r2, by simp, rfl, rfl, by simp⟩
  · rw [runPipeline_four c _ h u si g (Or.inr rfl),
      fourAgentRun_success c _ h u si g resp ct ps r1 r2 r3 r4 hd hct hps hne
        h1 h2 h3 h4]
    exact ⟨refinedParts4 r1 r2 r3 r4, by simp, rfl, rfl, by simp⟩
  · rw [runPipeline_four c _ h u si g (Or.inl rfl),
      fourAgentRun_success c _ h u si g resp ct ps r1 r2 r3 r4 hd hct hps hne
        h1 h2 h3 h4]
    exact ⟨refinedParts4 r1 r2 r3 r4, by simp, rfl, rfl, by simp⟩

/-- Claim C5, witness: the general Synthesize-request property at the
concrete scenario stub. -/
theorem c5_synthesize_from_original_history_witness :
    ∃ refined,
      refined = (if "flash" = "flash" then
          refinedParts2 (mkTextResponse "R1") (mkTextResponse "R2")
        else
          refinedParts4 (mkTextResponse "R1") (mkTextResponse "R2")
            (mkTextResponse "S") (mkTextResponse "S")) ∧
        (runPipeline stubC5 "flash" [] [Part.text "X"]
            none false).trace.getLast? =
          some [(.synthesize,
            synthRequest "flash" none false [] [Part.text "X"] refined)] ∧
        (synthRequest "flash" none false [] [Part.text "X"]
            refined).contents =
          [] ++ [{ role := "user",
                   parts := some ([Part.text "X"] ++ refined) }] ∧
        (runPipeline stubC5 "flash" [] [Part.text "X"]
            none false).outcome =
          stubC5 (if "flash" = "flash" then 3 else 5)
            (synthRequest "flash" none false [] [Part.text "X"] refined) :=
  c5_synthesize_from_original_history.1 stubC5 "flash" [] [Part.text "X"]
    none false (mkTextResponse "D") ⟨"model", some [Part.text "D"]⟩
    [Part.text "D"] (mkTextResponse "R1") (mkTextResponse "R2")
    (mkTextResponse "S") (mkTextResponse "S") (Or.inl rfl) rfl rfl rfl rfl
    rfl rfl rfl rfl

/-- In the `flash` branch, whatever the refine outcomes, every issued
Refine call carries the one shared refine request. -/
lemma twoAgentRun_refine_shape (c : Client) (mode : String) (h : List Content)
    (u : List Part) (si : Option String) (g : Bool)
    (resp : GenerateContentResponse) (ct : Content) (ps : List Part)
    (hd : c 0 (draftRequest mode si g h u) = .ok resp)
    (hct : resp.candidates.head?.bind Candidate.content = some ct)
    (hps : ct.parts = some ps)
    (hne : ps.isEmpty = false) :
    ∀ b ∈ (twoAgentRun c mode h u si g).trace, ∀ ev ∈ b,
      ev.1 = Stage.refine → ev.2 = refineRequest mode si g h u ct := by
  rcases hc1 : c 1 (refineRequest mode si g h u ct) with e1 | r1
  · simp only [twoAgentRun, hd, hct, hps, hne, hc1, Bool.false_eq_true,
      if_false]
    simp [List.forall_mem_cons]
  · rcases hc2 : c 2 (refineRequest mode si g h u ct) with e2 | r2 <;>
      · simp only [twoAgentRun, hd, hct, hps, hne, hc1, hc2,
          Bool.false_eq_true, if_false]
        simp [List.forall_mem_cons]

/-- In the `pro`/`heavy` branch, whatever the refine outcomes, every
issued Refine call carries the one shared refine request. -/
lemma fourAgentRun_refine_shape (c : Client) (mode : String)
    (h : List Content) (u : List Part) (si : Option String) (g : Bool)
    (resp : GenerateContentResponse) (ct : Content) (ps : List Part)
    (hd : c 0 (draftRequest mode si g h u) = .ok resp)
    (hct : resp.candidates.head?.bind Candidate.content = some ct)
    (hps : ct.parts = some ps)
    (hne : ps.isEmpty = false) :
    ∀ b ∈ (fourAgentRun c mode h u si g).trace, ∀ ev ∈ b,
      ev.1 = Stage.refine → ev.2 = refineRequest mode si g h u ct := by
  rcases hc1 : c 1 (refineRequest mode si g h u ct) with e1 | r1
  · simp only [fourAgentRun, hd, hct, hps, hne, hc1, Bool.false_eq_true,
      if_false]
    simp [List.forall_mem_cons]
  · rcases hc2 : c 2 (refineRequest mode si g h u ct) with e2 | r2
    · simp only [fourAgentRun, hd, hct, hps, hne, hc1, hc2,
        Bool.false_eq_true, if_false]
      simp [List.forall_mem_cons]
    · rcases hc3 : c 3 (refineRequest mode si g h u ct) with e3 | r3
      · simp only [fourAgentRun, hd, hct, hps, hne, hc1, hc2, hc3,
          Bool.false_eq_true, if_false]
        simp [List.forall_mem_cons]
      · rcases hc4 : c 4 (refineRequest mode si g h u ct) with e4 | r4 <;>
          · simp only [fourAgentRun, hd, hct, hps, hne, hc1, hc2, hc3, hc4,
              Bool.false_eq_true, if_false]
            simp [List.forall_mem_cons]

/-- Claim C6: in every pipeline mode whose draft succeeded with non-empty
content, every issued Refine call carries one and the same request, whose
prior turns are the original history followed by the user turn and the
draft content, whose new turn is empty, and whose system instruction is
the (persona-combined) Refinement-stage instruction. -/
theorem c6_refine_request_shape (c : Client) (mode : String)
    (h : List Content) (u : List Part) (si : Option String) (g : Bool)
    (resp : GenerateContentResponse) (ct : Content) (ps : List Part)
    (hm : mode = "flash" ∨ mode = "pro" ∨ mode = "heavy")
    (hd : c 0 (draftRequest mode si g h u) = .ok resp)
    (hct : resp.candidates.head?.bind Candidate.content = some ct)
    (hps : ct.parts = some ps)
    (hne : ps.isEmpty = false) :
    (∀ b ∈ (runPipeline c mode h u si g).trace, ∀ ev ∈ b,
        ev.1 = Stage.refine → ev.2 = refineRequest mode si g h u ct) ∧
      (refineRequest mode si g h u ct).contents =
        (h ++ [userTurn u, ct]) ++ [{ role := "user", parts := some [] }] ∧
      (refineRequest mode si g h u ct).config.systemInstruction =
        some (combineInstructions si REFINEMENT_SYSTEM_INSTRUCTION) := by
  refine ⟨?_, rfl, rfl⟩
  rcases hm with hm | hm | hm <;> subst hm
  · rw [runPipeline_flash]
    exact twoAgentRun_refine_shape c _ h u si g resp ct ps hd hct hps hne
  · rw [runPipeline_four c _ h u si g (Or.inr rfl)]
    exact fourAgentRun_refine_shape c _ h u si g resp ct ps hd hct hps hne
  · rw [runPipeline_four c _ h u si g (Or.inl rfl)]
    exact fourAgentRun_refine_shape c _ h u si g resp ct ps hd hct hps hne

/-- Claim C6, witness: the refine-request shape at a concrete `flash`
run. -/
theorem c6_refine_request_shape_witness :
    (∀ b ∈ (runPipeline stubD "flash" [] [Part.text "X"]
        none false).trace, ∀ ev ∈ b,
        ev.1 = Stage.refine →
          ev.2 = refineRequest "flash" none false [] [Part.text "X"]
            ⟨"model", some [Part.text "D"]⟩) ∧
      (refineRequest "flash" none false [] [Part.text "X"]
          ⟨"model", some [Part.text "D"]⟩).contents =
        ([] ++ [userTurn [Part.text "X"], ⟨"model", some [Part.text "D"]⟩]) ++
          [{ role := "user", parts := some [] }] ∧
      (refineRequest "flash" none false [] [Part.text "X"]
          ⟨"model", some [Part.text "D"]⟩).config.systemInstruction =
        some (combineInstructions none REFINEMENT_SYSTEM_INSTRUCTION) :=
  c6_refine_request_shape stubD "flash" [] [Part.text "X"] none false
    (mkTextResponse "D") ⟨"model", some [Part.text "D"]⟩ [Part.text "D"]
    (Or.inl rfl) rfl rfl rfl rfl

/-- Claim C7: in every pipeline mode whose draft succeeded with non-empty
content, if any one of the Refine calls fails then the whole run fails:
the outcome is that error, no Synthesize call is ever issued, and the
message delivered to the caller is the error text — never a partial
draft or refinement result. -/
theorem c7_refine_failure_fails_run (c : Client) (mode : String)
    (h : List Content) (u : List Part) (si : Option String) (g : Bool)
    (resp : GenerateContentResponse) (ct : Content) (ps : List Part)
    (hm : mode = "flash" ∨ mode = "pro" ∨ mode = "heavy")
    (hd : c 0 (draftRequest mode si g h u) = .ok resp)
    (hct : resp.candidates.head?.bind Candidate.content = some ct)
    (hps : ct.parts = some ps)
    (hne : ps.isEmpty = false)
    (hfail : ∃ k e, 1 ≤ k ∧ k ≤ refineAgents mode ∧
      c k (refineRequest mode si g h u ct) = .error e) :
    ∃ e, (runPipeline c mode h u si g).outcome = .error e ∧
      Stage.synthesize ∉ (stagesOf (runPipeline c mode h u si g)).flatten ∧
      deliveredMessageParts (runPipeline c mode h u si g) =
        [Part.text ("An error occurred: " ++ e)] := by
  rcases hm with hm | hm | hm <;> subst hm
  · rw [runPipeline_flash]
    have hfail2 : ∃ k e, 1 ≤ k ∧ k ≤ 2 ∧
        c k (refineRequest "flash" si g h u ct) = .error e := by
      simpa [refineAgents] using hfail
    obtain ⟨e, heq⟩ :=
      twoAgentRun_refineFail c _ h u si g resp ct ps hd hct hps hne hfail2
    rw [heq]
    exact ⟨e, rfl, by simp [stagesOf], rfl⟩
  · rw [runPipeline_four c _ h u si g (Or.inr rfl)]
    have hfail4 : ∃ k e, 1 ≤ k ∧ k ≤ 4 ∧
        c k (refineRequest "pro" si g h u ct) = .error e := by
      simpa [refineAgents] using hfail
    obtain ⟨e, heq | heq⟩ :=
      fourAgentRun_refineFail c _ h u si g resp ct ps hd hct hps hne hfail4 <;>
      · rw [heq]
        exact ⟨e, rfl, by simp [stagesOf], rfl⟩
  · rw [runPipeline_four c _ h u si g (Or.inl rfl)]
    have hfail4 : ∃ k e, 1 ≤ k ∧ k ≤ 4 ∧
        c k (refineRequest "heavy" si g h u ct) = .error e := by
      simpa [refineAgents] using hfail
    obtain ⟨e, heq | heq⟩ :=
      fourAgentRun_refineFail c _ h u si g resp ct ps hd hct hps hne hfail4 <;>
      · rw [heq]
        exact ⟨e, rfl, by simp [stagesOf], rfl⟩

/-- A stub client whose call number 1 — the first Refine call — throws,
while every other call succeeds. -/
def stubRefineFail : Client := fun k _ =>
  if k = 1 then .error "boom" else .ok (mkTextResponse "D")

/-- Claim C7, witness: one failing refiner fails a concrete `flash` run
with no Synthesize call and only the error text delivered. -/
theorem c7_refine_failure_fails_run_witness :
    ∃ e, (runPipeline stubRefineFail "flash" [] [Part.text "X"]
          none false).outcome = .error e ∧
      Stage.synthesize ∉
        (stagesOf (runPipeline stubRefineFail "flash" [] [Part.text "X"]
          none false)).flatten ∧
      deliveredMessageParts
          (runPipeline stubRefineFail "flash" [] [Part.text "X"]
            none false) =
        [Part.text ("An error occurred: " ++ e)] :=
  c7_refine_failure_fails_run stubRefineFail "flash" [] [Part.text "X"]
    none false (mkTextResponse "D") ⟨"model", some [Part.text "D"]⟩
    [Part.text "D"] (Or.inl rfl) rfl rfl rfl rfl
    ⟨1, "boom", le_refl 1, by decide, rfl⟩

/-- Claim C8, counterexample.  An unrecognised mode (here `"turbo"`) is
not rejected with any configuration error: the `default` arm of the
mode switch silently falls back to `PRO_MODEL` and the run takes the
single-call path and succeeds. -/
theorem c8_counterexample :
    (runPipeline stubD "turbo" [] [Part.text "X"] none false).outcome =
        .ok (mkTextResponse "D") ∧
      (runPipeline stubD "turbo" [] [Part.text "X"] none false).trace =
        [[(.single, singleRequest "turbo" none false [] [Part.text "X"])]] ∧
      (singleRequest "turbo" none false [] [Part.text "X"]).model =
        PRO_MODEL :=
  ⟨rfl, rfl, rfl⟩

/-- Claim C8, amended: mode resolution is a pure total function that
never fails; every mode resolves to one of the three model tiers, and an
unrecognised mode falls back to `PRO_MODEL` with the single-call path
(still issuing exactly one completion call, after resolution). -/
theorem c8_mode_resolution_total (m : String) :
    (modelFor m = HEAVY_MODEL ∨ modelFor m = PRO_MODEL ∨
        modelFor m = QUICK_MODEL) ∧
      (∀ (c : Client) (h : List Content) (u : List Part)
         (si : Option String) (g : Bool),
         m ≠ "heavy" → m ≠ "pro" → m ≠ "flash" → m ≠ "quick" →
         runPipeline c m h u si g =
             ⟨[[(.single, singleRequest m si g h u)]],
              c 0 (singleRequest m si g h u)⟩ ∧
           (singleRequest m si g h u).model = PRO_MODEL) := by
  constructor
  · by_cases h1 : m = "heavy"
    · exact Or.inl (by simp [modelFor, h1])
    · by_cases h2 : m = "pro"
      · exact Or.inr (Or.inl (by simp [modelFor, h1, h2]))
      · by_cases h3 : m = "flash"
        · exact Or.inr (Or.inl (by simp [modelFor, h1, h2, h3]))
        · by_cases h4 : m = "quick"
          · exact Or.inr (Or.inr (by simp [modelFor, h1, h2, h3, h4]))
          · exact Or.inr (Or.inl (by simp [modelFor, h1, h2, h3, h4]))
  · intro c h u si g hh hp hf hq
    constructor
    · rw [runPipeline_single c m h u si g (fun hor => hor.elim hh hp) hf]
      rfl
    · simp [singleRequest, modelFor, hh, hp, hf, hq]

/-- Claim C8, witness: the fallback resolution at the concrete
unrecognised mode `"turbo"`. -/
theorem c8_mode_resolution_total_witness :
    runPipeline stubD "turbo" [] [] none false =
        ⟨[[(.single, singleRequest "turbo" none false [] [])]],
         stubD 0 (singleRequest "turbo" none false [] [])⟩ ∧
      (singleRequest "turbo" none false [] []).model = PRO_MODEL :=
  (c8_mode_resolution_total "turbo").2 stubD [] [] none false
    (by decide) (by decide) (by decide) (by decide)

/-- Claim C9: the call pattern is deterministic — two runs with identical
inputs against extensionally equal (deterministic) clients produce the
identical run, in particular the identical sequence of issued request
batches. -/
theorem c9_deterministic_call_pattern (c₁ c₂ : Client) (mode : String)
    (h : List Content) (u : List Part) (si : Option String) (g : Bool)
    (hcc : ∀ k r, c₁ k r = c₂ k r) :
    runPipeline c₁ mode h u si g = runPipeline c₂ mode h u si g := by
  have hc : c₁ = c₂ := funext fun k => funext fun r => hcc k r
  rw [hc]

/-- A second stub defined by the same rule as `stubD`. -/
def stubDCopy : Client := fun _ _ => .ok (mkTextResponse "D")

/-- Claim C9, witness: two concrete runs with identical inputs and
extensionally equal stubs coincide. -/
theorem c9_deterministic_call_pattern_witness :
    runPipeline stubD "flash" [] [Part.text "X"] none false =
      runPipeline stubDCopy "flash" [] [Part.text "X"] none false :=
  c9_deterministic_call_pattern stubD stubDCopy "flash" [] [Part.text "X"]
    none false (fun _ _ => rfl)

/-- A stub client answering every call with a response whose sole
candidate has a present but empty parts array. -/
def stubEmptyParts : Client := fun _ _ => .ok emptyPartsResponse

/-- Claim C10, counterexample.  A final response with a present but empty
parts array is delivered as-is: JavaScript `||` does not replace an empty
array (arrays are truthy), so the delivered message has zero parts and no
placeholder text. -/
theorem c10_counterexample :
    (runPipeline stubEmptyParts "quick" [] [Part.text "X"]
          none false).outcome = .ok emptyPartsResponse ∧
      responseParts emptyPartsResponse = [] ∧
      deliveredMessageParts
          (runPipeline stubEmptyParts "quick" [] [Part.text "X"]
            none false) = [] ∧
      (deliveredMessageParts
          (runPipeline stubEmptyParts "quick" [] [Part.text "X"]
            none false)).length = 0 ∧
      ([] : List Part) ≠
        [Part.text "Sorry, I couldn\x27t generate a response."] :=
  ⟨rfl, rfl, rfl, rfl, by decide⟩

/-- Claim C10, amended: for every run that terminates successfully, the
delivered message parts are the final response's parts whenever the
optional chain `candidates?.[0]?.content?.parts` is present (even as an
empty array), and the single placeholder text part only when that chain
is absent. -/
theorem c10_placeholder_only_when_parts_absent (rr : RunResult)
    (resp : GenerateContentResponse) (hok : rr.outcome = .ok resp) :
    deliveredMessageParts rr =
      (partsChain resp).getD
        [Part.text "Sorry, I couldn\x27t generate a response."] := by
  unfold deliveredMessageParts
  rw [hok]
  rcases hpc : partsChain resp with _ | ps <;>
    simp [finalModelParts, hpc]

/-- Claim C10, witness: the placeholder substitution at a concrete run
whose single-call response has no candidates (the parts chain absent). -/
theorem c10_placeholder_only_when_parts_absent_witness :
    deliveredMessageParts
        (runPipeline stubNoCandidates "quick" [] [Part.text "X"]
          none false) =
      (partsChain ⟨[]⟩).getD
        [Part.text "Sorry, I couldn\x27t generate a response."] :=
  c10_placeholder_only_when_parts_absent
    (runPipeline stubNoCandidates "quick" [] [Part.text "X"] none false)
    ⟨[]⟩ rfl

end Mulibot
